import Mathlib

/-!
# Verification of the UTDRS API gateway request/response pipeline

Shallow embedding of the gateway's middleware pipeline:
* `src/api/middleware/security.py` — `SecurityMiddleware`, `RequestValidationMiddleware`,
  `sanitize_input`, `validate_json_input`, `rate_limit_handler`;
* `src/api/middleware/error_handler.py` — `ErrorHandlerMiddleware` and the per-exception
  handler functions;
* `src/app.py` — the middleware registration order and the registered
  exception-to-handler mappings.

Modelling conventions:
* Python strings are modelled as Lean `String`s; `str.lower` is modelled with ASCII
  case folding (`String.toLower`), which agrees with Python on the ASCII host names and
  header values that appear here.
* JSON-serialisable Python values are the inductive type `Value`; Python dicts are
  insertion-ordered association lists, as in CPython.
* The ASGI `scope["state"]` dict shared by every `Request` built from the same scope is
  modelled as an explicit `Option String` (the only key ever stored is `request_id`).
* `uuid.uuid4()` is nondeterministic at runtime, so the generated correlation id is a
  parameter of the pipeline model.
-/

set_option autoImplicit false

namespace Gateway

/-! ## Python string primitives -/

/-- Python's substring test `needle in haystack`, on character lists. -/
def charsContains (haystack needle : List Char) : Bool :=
  if needle.isPrefixOf haystack then true
  else
    match haystack with
    | [] => false
    | _ :: t => charsContains t needle

/-- Python's substring test `needle in haystack` on strings. -/
def pyContains (haystack needle : String) : Bool :=
  charsContains haystack.data needle.data

/-- Python's `str.lower`, modelled character-wise with ASCII case folding. -/
def pyLower (s : String) : String :=
  ⟨s.data.map Char.toLower⟩

/-- Value of a nonempty all-digit character list, base 10. -/
def digitsVal (cs : List Char) : Option Nat :=
  if cs.isEmpty then none
  else
    cs.foldl
      (fun acc c => acc.bind fun n => if c.isDigit then some (n * 10 + (c.toNat - 48)) else none)
      (some 0)

/-- Surrounding-whitespace strip, character-wise. -/
def trimChars (s : String) : List Char :=
  ((s.data.dropWhile Char.isWhitespace).reverse.dropWhile Char.isWhitespace).reverse

/-- Python's `int(s)` for base 10: surrounding whitespace stripped, optional sign,
then a nonempty digit run (digit-group underscores are not used by the gateway's
callers and are not modelled).  `none` models the raised `ValueError`. -/
def pyInt (s : String) : Option Int :=
  match trimChars s with
  | '-' :: rest => (digitsVal rest).map fun n => -(n : Int)
  | '+' :: rest => (digitsVal rest).map fun n => (n : Int)
  | other => (digitsVal other).map fun n => (n : Int)

/-! ## Sanitizer (`security.py`, `sanitize_input` / `validate_json_input`)

`sanitize_input` delegates tag stripping to the external `bleach` library with
`tags=[]`, `attributes={}`, `strip=True`.

Modelled from the spec: `bleach.clean` itself is an external dependency whose source is
not part of this repository; per the spec's §4.4 contract it "strip[s] all markup tags
and attributes (zero tags/attributes allowed; result is plain text with tags removed,
not escaped-and-kept)".  `stripAux` removes every maximal `<` … `>` segment (a tag,
dropped to the end of input when the closing `>` is missing, as an HTML tokenizer drops
an unterminated tag at end of input) and keeps all remaining text. -/
def stripAux : Bool → List Char → List Char
  | _, [] => []
  | true, c :: rest => if c = '>' then stripAux false rest else stripAux true rest
  | false, c :: rest => if c = '<' then stripAux true rest else c :: stripAux false rest

/-- Tag stripping on strings: the model of
`bleach.clean(data, tags=[], attributes={}, strip=True)`. -/
def stripTags (s : String) : String :=
  ⟨stripAux false s.data⟩

/-- JSON-serialisable Python values (deserialized request-body data). -/
inductive Value where
  | str : String → Value
  | int : Int → Value
  | bool : Bool → Value
  | null : Value
  | list : List Value → Value
  | dict : List (String × Value) → Value
deriving Repr, BEq

/-- `sanitize_input(data)` (security.py lines 131–142): strings are tag-stripped,
every non-string value is returned unchanged. -/
def sanitize_input : Value → Value
  | .str s => .str (stripTags s)
  | v => v

mutual

/-- The treatment `validate_json_input` applies to one dict value
(security.py lines 151–164): strings are sanitized, dicts are recursed into,
lists are sanitized per element, every other value is kept unchanged. -/
def sanitizeValue : Value → Value
  | .str s => .str (stripTags s)
  | .dict entries => .dict (sanitizeEntries entries)
  | .list items => .list (sanitizeItems items)
  | v => v

/-- Entry-wise sanitization of a dict's items, preserving key order. -/
def sanitizeEntries : List (String × Value) → List (String × Value)
  | [] => []
  | (k, v) :: rest => (k, sanitizeValue v) :: sanitizeEntries rest

/-- Element-wise sanitization of a list-valued entry (security.py lines 157–162). -/
def sanitizeItems : List Value → List Value
  | [] => []
  | v :: rest => sanitizeItem v :: sanitizeItems rest

/-- One list element: strings sanitized, dicts recursed into, any other element
(including a nested list) passed through unchanged. -/
def sanitizeItem : Value → Value
  | .str s => .str (stripTags s)
  | .dict entries => .dict (sanitizeEntries entries)
  | v => v

end

/-- `validate_json_input(data)` (security.py lines 145–166): rebuilds a dict
entry-by-entry; every non-dict argument is returned unchanged. -/
def validate_json_input : Value → Value
  | .dict entries => .dict (sanitizeEntries entries)
  | v => v

/-! ## Responses and headers -/

/-- An HTTP response: status code, header list (lower-cased ASGI header names) and the
JSON body.  The `content-length` byte-count header that the framework computes from the
serialized body is elided; no claim mentions it. -/
structure Response where
  status : Nat
  headers : List (String × String)
  body : Value
deriving Repr, BEq

/-- `JSONResponse(status_code=…, content=…)`: a fresh response whose only modelled
header is the `content-type` the framework sets. -/
def jsonResponse (status : Nat) (body : Value) : Response :=
  { status := status, headers := [("content-type", "application/json")], body := body }

/-- First-match lookup of a header name. -/
def headerGet (hs : List (String × String)) (k : String) : Option String :=
  (hs.find? fun kv => kv.1 == k).map (·.2)

/-- Python dict assignment `d[k] = v` on an insertion-ordered association list:
an existing key keeps its position and gets the new value, a new key is appended. -/
def dictSet : List (String × String) → String → String → List (String × String)
  | [], k, v => [(k, v)]
  | (k0, v0) :: rest, k, v =>
      if k0 = k then (k0, v) :: rest else (k0, v0) :: dictSet rest k v

/-- `dict(pairs)`: left-to-right insertion, so a duplicated key keeps its first
position with its last value. -/
def listToDict (l : List (String × String)) : List (String × String) :=
  l.foldl (fun m kv => dictSet m kv.1 kv.2) []

/-- An ASCII apostrophe, kept out of string literals. -/
def squote : String := (Char.ofNat 39).toString

/-- The fixed security headers of `SecurityMiddleware.send_wrapper`
(security.py lines 63–70), including the echoed correlation id. -/
def securityHeaders (requestId : String) : List (String × String) :=
  [("x-content-type-options", "nosniff"),
   ("x-frame-options", "DENY"),
   ("x-xss-protection", "1; mode=block"),
   ("referrer-policy", "strict-origin-when-cross-origin"),
   ("content-security-policy", "default-src " ++ squote ++ "self" ++ squote),
   ("x-request-id", requestId)]

/-- `send_wrapper`'s rewrite of an `http.response.start` message
(security.py lines 58–77): the header list becomes a dict, each security header is
assigned into it, and the dict items become the new header list. -/
def addSecurityHeaders (requestId : String) (r : Response) : Response :=
  { r with
    headers :=
      (securityHeaders requestId).foldl (fun m kv => dictSet m kv.1 kv.2)
        (listToDict r.headers) }

/-! ## Exceptions and log lines -/

/-- One entry of `exc.errors()` from the validation layer: a location path of string
keys and integer indices, a message, and a type tag. -/
inductive LocPart where
  | strPart : String → LocPart
  | intPart : Int → LocPart
deriving Repr, BEq

/-- Python `str(x)` for a location-path component. -/
def LocPart.pyStr : LocPart → String
  | .strPart s => s
  | .intPart n => toString n

/-- One reported validation failure. -/
structure VErr where
  loc : List LocPart
  msg : String
  type : String
deriving Repr, BEq

/-- The exceptions that can escape the downstream chain.  `httpException` is the
framework's `HTTPException`; `rateLimitExceeded` is slowapi's `RateLimitExceeded`
(itself a subclass of `HTTPException`, raised with status 429); `valueError` is an
interpreter `ValueError` such as the one `int()` raises; `other` is any further
unclassified exception, carrying its class name, `str()` and formatted traceback. -/
inductive Exc where
  | httpException (statusCode : Nat) (detail : String)
  | requestValidationError (errors : List VErr)
  | validationError (errors : List VErr)
  | businessLogicError (message : String) (errorCode : Option String)
  | databaseError (message : String) (operation : Option String)
  | externalServiceError (message : String) (service : Option String) (statusCode : Option Nat)
  | rateLimitExceeded (detail : String) (retryAfter : Int)
  | valueError (message : String)
  | other (typeName : String) (message : String) (trace : String)
deriving Repr, BEq

/-- `type(exc).__name__`. -/
def Exc.pyTypeName : Exc → String
  | .httpException .. => "HTTPException"
  | .requestValidationError _ => "RequestValidationError"
  | .validationError _ => "ValidationError"
  | .businessLogicError .. => "BusinessLogicError"
  | .databaseError .. => "DatabaseError"
  | .externalServiceError .. => "ExternalServiceError"
  | .rateLimitExceeded .. => "RateLimitExceeded"
  | .valueError _ => "ValueError"
  | .other typeName _ _ => typeName

/-- `str(exc)`: the carried message (for the framework exceptions, their detail). -/
def Exc.pyStr : Exc → String
  | .httpException _ detail => detail
  | .requestValidationError _ => "request validation failed"
  | .validationError _ => "validation failed"
  | .businessLogicError message _ => message
  | .databaseError message _ => message
  | .externalServiceError message _ _ => message
  | .rateLimitExceeded detail _ => detail
  | .valueError message => message
  | .other _ message _ => message

/-- `traceback.format_exc()`: a runtime artifact of the interpreter, modelled
abstractly as a text derived from (or, for `other`, carried with) the exception. -/
def Exc.traceText : Exc → String
  | .other _ _ trace => trace
  | e => "Traceback (most recent call last): " ++ e.pyTypeName ++ ": " ++ e.pyStr

/-- A structlog event: level, event name, the `request_id` field, and the further
key-value fields the call site passes (request method/url/client fields that no claim
mentions are elided). -/
structure LogLine where
  level : String
  event : String
  request_id : Option String
  extra : List (String × String)
deriving Repr, BEq

/-- A present correlation id becomes a JSON string, an absent one JSON `null`. -/
def optVal : Option String → Value
  | none => .null
  | some s => .str s

/-! ## Error classifier (`error_handler.py`) -/

/-- `_handle_http_exception` (error_handler.py lines 49–69). -/
def handle_http_exception (requestId : Option String) (statusCode : Nat)
    (detail : String) : Response × LogLine :=
  (jsonResponse statusCode
      (.dict [("error", .str "HTTP_EXCEPTION"),
              ("detail", .str detail),
              ("request_id", optVal requestId)]),
   { level := "warning", event := "HTTP exception occurred", request_id := requestId,
     extra := [("status_code", toString statusCode), ("detail", detail)] })

/-- The field-error list both validation handlers build (error_handler.py
lines 75–83 and 107–115): one entry per reported failure, in the reported order,
the location path joined with a dot. -/
def fieldError (e : VErr) : Value :=
  .dict [("field", .str (String.intercalate "." (e.loc.map LocPart.pyStr))),
         ("message", .str e.msg),
         ("type", .str e.type)]

/-- `_handle_validation_error` (error_handler.py lines 71–101). -/
def handle_validation_error (requestId : Option String)
    (errors : List VErr) : Response × LogLine :=
  (jsonResponse 422
      (.dict [("error", .str "VALIDATION_ERROR"),
              ("detail", .str "Request validation failed"),
              ("errors", .list (errors.map fieldError)),
              ("request_id", optVal requestId)]),
   { level := "warning", event := "Request validation error", request_id := requestId,
     extra := [] })

/-- `_handle_pydantic_validation_error` (error_handler.py lines 103–133). -/
def handle_pydantic_validation_error (requestId : Option String)
    (errors : List VErr) : Response × LogLine :=
  (jsonResponse 422
      (.dict [("error", .str "VALIDATION_ERROR"),
              ("detail", .str "Data validation failed"),
              ("errors", .list (errors.map fieldError)),
              ("request_id", optVal requestId)]),
   { level := "warning", event := "Pydantic validation error", request_id := requestId,
     extra := [] })

/-- `_handle_internal_error` (error_handler.py lines 135–159): the body is a fixed
generic envelope; the exception's class name, message and traceback go only into the
log line. -/
def handle_internal_error (requestId : Option String) (exc : Exc) : Response × LogLine :=
  (jsonResponse 500
      (.dict [("error", .str "INTERNAL_SERVER_ERROR"),
              ("detail", .str "An internal server error occurred"),
              ("request_id", optVal requestId)]),
   { level := "error", event := "Internal server error", request_id := requestId,
     extra := [("error_type", exc.pyTypeName),
               ("error_message", exc.pyStr),
               ("traceback", exc.traceText)] })

/-- `_handle_exception` (error_handler.py lines 34–47): the `isinstance` dispatch.
`RateLimitExceeded` subclasses `HTTPException`, so it takes the first branch. -/
def handle_exception (requestId : Option String) : Exc → Response × LogLine
  | .httpException statusCode detail => handle_http_exception requestId statusCode detail
  | .rateLimitExceeded detail _ => handle_http_exception requestId 429 detail
  | .requestValidationError errors => handle_validation_error requestId errors
  | .validationError errors => handle_pydantic_validation_error requestId errors
  | e => handle_internal_error requestId e

/-- `business_logic_error_handler` (error_handler.py lines 192–211).  Defined in the
source but registered with the application by no code in `src/app.py`. -/
def business_logic_error_handler (requestId : Option String) (message : String)
    (errorCode : Option String) : Response × LogLine :=
  (jsonResponse 400
      (.dict [("error", .str "BUSINESS_LOGIC_ERROR"),
              ("error_code", optVal errorCode),
              ("detail", .str message),
              ("request_id", optVal requestId)]),
   { level := "warning", event := "Business logic error", request_id := requestId,
     extra := [("error_code", errorCode.getD ""), ("message", message)] })

/-- `rate_limit_handler` (security.py lines 170–184): the registered handler for
`RateLimitExceeded` (src/app.py line 30). -/
def rate_limit_handler (requestId : Option String) (retryAfter : Int) : Response × LogLine :=
  (jsonResponse 429
      (.dict [("detail", .str "Rate limit exceeded. Please try again later."),
              ("retry_after", .int retryAfter)]),
   { level := "warning", event := "Rate limit exceeded", request_id := requestId,
     extra := [] })

/-! ## Security gate (`security.py`, `SecurityMiddleware`) -/

/-- The security policy snapshot: `SecurityMiddleware.__init__`'s `allowed_hosts`
(`["*"]` when the caller passes none) and `max_request_size` (default 10 MiB). -/
structure Policy where
  allowed_hosts : List String
  max_request_size : Nat
deriving Repr, BEq

/-- The request facts the pipeline consumes: the values of the `host` and
`content-length` headers (Starlette exposes header names lower-cased, so
`request.headers.get` is a plain lookup modelled by these two fields). -/
structure Request where
  host : Option String
  contentLength : Option String
deriving Repr, BEq

/-- `SecurityMiddleware._validate_host` (security.py lines 81–87): wildcard member
accepts everything; otherwise the lower-cased host (empty when the header is absent)
must contain some lower-cased allow-list entry as a substring. -/
def validate_host (p : Policy) (req : Request) : Bool :=
  if p.allowed_hosts.contains "*" then true
  else
    let host := pyLower (req.host.getD "")
    p.allowed_hosts.any fun allowed => pyContains host (pyLower allowed)

/-- Outcome of the size check `content_length and int(content_length) > max_request_size`
(security.py lines 48–49): `convError` is the `ValueError` that `int()` raises on a
non-numeric declared length. -/
inductive SizeCheck where
  | pass
  | tooLarge
  | convError (literal : String)
deriving Repr, BEq, DecidableEq

/-- The size check itself: an absent or empty (falsy) `content-length` passes,
a parsed value is compared against the configured maximum. -/
def sizeCheck (p : Policy) (req : Request) : SizeCheck :=
  match req.contentLength with
  | none => .pass
  | some cl =>
      if cl = "" then .pass
      else
        match pyInt cl with
        | none => .convError cl
        | some n => if n > (p.max_request_size : Int) then .tooLarge else .pass

/-- What one middleware layer hands outward: the response (or the exception still
propagating), whether the route handler ran, the `scope["state"]` correlation id, and
the log lines emitted so far. -/
structure Inner where
  result : Except Exc Response
  handlerRan : Bool
  state : Option String
  logs : List LogLine
deriving Repr

/-- `SecurityMiddleware.__call__` (security.py lines 27–79).  The correlation id is
stored into the shared request state first; a failed host check short-circuits with a
400 and a too-large declared length with a 413 — both written through the *plain*
`send`, so neither passes `send_wrapper`; a non-numeric declared length raises out of
`int()`; otherwise the downstream app runs with `send_wrapper` installed, which stamps
the security headers onto the response it emits. -/
def SecurityMiddleware.call (p : Policy) (requestId : String) (req : Request)
    (app : Option String → Except Exc Response × Bool × List LogLine) : Inner :=
  let st : Option String := some requestId
  if validate_host p req = false then
    { result := .ok (jsonResponse 400 (.dict [("detail", .str "Invalid host header")])),
      handlerRan := false, state := st, logs := [] }
  else
    match sizeCheck p req with
    | .tooLarge =>
        { result := .ok (jsonResponse 413 (.dict [("detail", .str "Request too large")])),
          handlerRan := false, state := st, logs := [] }
    | .convError cl =>
        { result := .error (.valueError ("invalid literal for int() with base 10: " ++ cl)),
          handlerRan := false, state := st, logs := [] }
    | .pass =>
        match app st with
        | (.ok r, ran, logs) =>
            { result := .ok (addSecurityHeaders requestId r),
              handlerRan := ran, state := st, logs := logs }
        | (.error e, ran, logs) =>
            { result := .error e, handlerRan := ran, state := st, logs := logs }

/-- `RequestValidationMiddleware.__call__` (security.py lines 96–128): logs the
incoming request (its `request_id` read from the state *before* the inner security
gate stores one, hence `stateBefore`), runs the inner app, and logs completion when a
response start message passes its `send_wrapper`; when the inner app raises, no
response passes through it and only the incoming line is kept. -/
def RequestValidationMiddleware.call (stateBefore : Option String) (inner : Inner) : Inner :=
  let startLog : LogLine :=
    { level := "info", event := "Incoming request", request_id := stateBefore, extra := [] }
  match inner.result with
  | .ok r =>
      { inner with
        logs := startLog :: inner.logs ++
          [{ level := "info", event := "Request completed", request_id := inner.state,
             extra := [("status_code", toString r.status)] }] }
  | .error _ => { inner with logs := startLog :: inner.logs }

/-- `ErrorHandlerMiddleware.__call__` (error_handler.py lines 21–32): passes a
successful response through untouched; classifies any escaping exception with
`_handle_exception` and sends the synthesized response through its own plain `send`
(which is *outside* the security gate's `send_wrapper`). -/
def ErrorHandlerMiddleware.call (inner : Inner) : Inner :=
  match inner.result with
  | .ok _ => inner
  | .error e =>
      let (resp, line) := handle_exception inner.state e
      { inner with result := .ok resp, logs := inner.logs ++ [line] }

/-! ## The composed pipeline (`src/app.py`) -/

/-- What the route-handler layer does on this request: return a response or raise. -/
inductive HandlerOutcome where
  | success (resp : Response)
  | raiseExc (e : Exc)
deriving Repr

/-- Modelled from the spec: the external routing/dispatch layer ("Pipeline Composer")
is specified only as "a routing/dispatch layer that accepts a registered ordered chain
of middleware-like stages and a set of exception-to-handler mappings"; its own source
is not part of this repository.  It dispatches to the route handler and applies the
registered exception-to-handler mappings — `src/app.py` line 30 registers exactly one:
`RateLimitExceeded ↦ rate_limit_handler`.  Any other exception propagates outward. -/
def dispatchLayer (h : HandlerOutcome) (st : Option String) :
    Except Exc Response × Bool × List LogLine :=
  match h with
  | .success r => (.ok r, true, [])
  | .raiseExc (.rateLimitExceeded _ retryAfter) =>
      let (resp, line) := rate_limit_handler st retryAfter
      (.ok resp, true, [line])
  | .raiseExc e => (.error e, true, [])

/-- The final observable outcome of one request. -/
structure RunResult where
  response : Response
  handlerRan : Bool
  state : Option String
  logs : List LogLine
deriving Repr

/-- The middleware stack of `src/app.py` lines 25–30.  `add_middleware` stacks each
new middleware *outside* the previously added ones, so the chain outermost-first is
`ErrorHandlerMiddleware → RequestValidationMiddleware → SecurityMiddleware → dispatch`
(the CORS middleware added last is a pass-through for the requests modelled here and
is elided).  `requestId` is the `uuid.uuid4()` value drawn for this request.
`ErrorHandlerMiddleware` catches every exception, so the run always ends in a
response. -/
def pipelineRun (p : Policy) (requestId : String) (req : Request)
    (h : HandlerOutcome) : RunResult :=
  let inner := SecurityMiddleware.call p requestId req (dispatchLayer h)
  let mid := RequestValidationMiddleware.call none inner
  let outer := ErrorHandlerMiddleware.call mid
  match outer.result with
  | .ok r =>
      { response := r, handlerRan := outer.handlerRan, state := outer.state,
        logs := outer.logs }
  | .error _ =>
      -- unreachable: ErrorHandlerMiddleware.call never returns an error
      { response := jsonResponse 500 .null, handlerRan := outer.handlerRan,
        state := outer.state, logs := outer.logs }

/-! ## Helper lemmas: header dictionaries -/

theorem headerGet_cons_eq (k v : String) (rest : List (String × String)) :
    headerGet ((k, v) :: rest) k = some v := by
  simp [headerGet, List.find?]

theorem headerGet_cons_ne (k0 v0 k : String) (rest : List (String × String))
    (h : k0 ≠ k) : headerGet ((k0, v0) :: rest) k = headerGet rest k := by
  have hb : (k0 == k) = false := beq_eq_false_iff_ne.mpr h
  simp [headerGet, List.find?, hb]

theorem headerGet_dictSet_self (m : List (String × String)) (k v : String) :
    headerGet (dictSet m k v) k = some v := by
  induction m with
  | nil => simp [dictSet, headerGet, List.find?]
  | cons kv rest ih =>
      obtain ⟨k0, v0⟩ := kv
      by_cases h : k0 = k
      · subst h
        simp only [dictSet, if_pos trivial, ite_true]
        exact headerGet_cons_eq k0 v rest
      · simp only [dictSet, if_neg h]
        rw [headerGet_cons_ne k0 v0 k _ h]
        exact ih

theorem headerGet_dictSet_other (m : List (String × String)) (k v k' : String)
    (h : k' ≠ k) : headerGet (dictSet m k v) k' = headerGet m k' := by
  induction m with
  | nil =>
      simp only [dictSet]
      rw [headerGet_cons_ne k v k' [] (Ne.symm h)]
  | cons kv rest ih =>
      obtain ⟨k0, v0⟩ := kv
      by_cases h0 : k0 = k
      · subst h0
        simp only [dictSet, if_pos trivial, ite_true]
        rw [headerGet_cons_ne k0 v k' rest (fun e => h (e.symm)),
          headerGet_cons_ne k0 v0 k' rest (fun e => h (e.symm))]
      · simp only [dictSet, if_neg h0]
        by_cases h1 : k0 = k'
        · subst h1
          rw [headerGet_cons_eq, headerGet_cons_eq]
        · rw [headerGet_cons_ne k0 v0 k' _ h1, headerGet_cons_ne k0 v0 k' _ h1]
          exact ih

/-- After `send_wrapper`'s rewrite, each of the six security headers reads back with
its fixed value (`x-request-id` with the correlation id), whatever headers the wrapped
response carried. -/
theorem addSecurityHeaders_lookups (requestId : String) (r : Response) :
    headerGet (addSecurityHeaders requestId r).headers "x-content-type-options"
        = some "nosniff" ∧
    headerGet (addSecurityHeaders requestId r).headers "x-frame-options"
        = some "DENY" ∧
    headerGet (addSecurityHeaders requestId r).headers "x-xss-protection"
        = some "1; mode=block" ∧
    headerGet (addSecurityHeaders requestId r).headers "referrer-policy"
        = some "strict-origin-when-cross-origin" ∧
    headerGet (addSecurityHeaders requestId r).headers "content-security-policy"
        = some ("default-src " ++ squote ++ "self" ++ squote) ∧
    headerGet (addSecurityHeaders requestId r).headers "x-request-id"
        = some requestId := by
  simp only [addSecurityHeaders, securityHeaders, List.foldl]
  refine ⟨?_, ?_, ?_, ?_, ?_, ?_⟩ <;>
    simp [headerGet_dictSet_self, headerGet_dictSet_other]

/-! ## Helper lemmas: tag stripping -/

theorem stripAux_no_lt (l : List Char) : ∀ b, '<' ∉ stripAux b l := by
  induction l with
  | nil => intro b; cases b <;> simp [stripAux]
  | cons c rest ih =>
      intro b
      cases b with
      | true =>
          simp only [stripAux]
          split
          · exact ih false
          · exact ih true
      | false =>
          simp only [stripAux]
          split
          · exact ih true
          · rename_i h
            intro hmem
            rcases List.mem_cons.mp hmem with h1 | h2
            · exact h h1.symm
            · exact ih false h2

theorem stripAux_of_no_lt (l : List Char) (h : '<' ∉ l) : stripAux false l = l := by
  induction l with
  | nil => simp [stripAux]
  | cons c rest ih =>
      have hc : ¬(c = '<') := fun e => h (by simp [e])
      simp only [stripAux, if_neg hc]
      exact congrArg (c :: ·) (ih fun hm => h (List.mem_cons_of_mem _ hm))

theorem stripTags_idem (s : String) : stripTags (stripTags s) = stripTags s := by
  unfold stripTags
  exact congrArg String.mk (stripAux_of_no_lt _ (stripAux_no_lt s.data false))

/-! ## Helper lemmas: sanitizer -/

mutual

theorem sanitizeValue_idem : ∀ v, sanitizeValue (sanitizeValue v) = sanitizeValue v
  | .str s => by simp [sanitizeValue, stripTags_idem]
  | .dict entries => by simp [sanitizeValue, sanitizeEntries_idem entries]
  | .list items => by simp [sanitizeValue, sanitizeItems_idem items]
  | .int _ => by simp [sanitizeValue]
  | .bool _ => by simp [sanitizeValue]
  | .null => by simp [sanitizeValue]

theorem sanitizeEntries_idem : ∀ l, sanitizeEntries (sanitizeEntries l) = sanitizeEntries l
  | [] => by simp [sanitizeEntries]
  | (k, v) :: rest => by
      simp [sanitizeEntries, sanitizeValue_idem v, sanitizeEntries_idem rest]

theorem sanitizeItems_idem : ∀ l, sanitizeItems (sanitizeItems l) = sanitizeItems l
  | [] => by simp [sanitizeItems]
  | v :: rest => by
      simp [sanitizeItems, sanitizeItem_idem v, sanitizeItems_idem rest]

theorem sanitizeItem_idem : ∀ v, sanitizeItem (sanitizeItem v) = sanitizeItem v
  | .str s => by simp [sanitizeItem, stripTags_idem]
  | .dict entries => by simp [sanitizeItem, sanitizeEntries_idem entries]
  | .list _ => by simp [sanitizeItem]
  | .int _ => by simp [sanitizeItem]
  | .bool _ => by simp [sanitizeItem]
  | .null => by simp [sanitizeItem]

end

theorem sanitizeEntries_eq_map (l : List (String × Value)) :
    sanitizeEntries l = l.map fun kv => (kv.1, sanitizeValue kv.2) := by
  induction l with
  | nil => simp [sanitizeEntries]
  | cons kv rest ih =>
      obtain ⟨k, v⟩ := kv
      simp [sanitizeEntries, ih]

theorem sanitizeItems_eq_map (l : List Value) :
    sanitizeItems l = l.map sanitizeItem := by
  induction l with
  | nil => simp [sanitizeItems]
  | cons v rest ih => simp [sanitizeItems, ih]

/-! ## Further observation helpers -/

/-- Field lookup in a JSON object body. -/
def Value.get? : Value → String → Option Value
  | .dict entries, k => (entries.find? fun kv => kv.1 == k).map (·.2)
  | _, _ => none

/-- Whether an exception is slowapi's `RateLimitExceeded` (the only exception with a
registered handler in `src/app.py`). -/
def Exc.isRateLimit : Exc → Bool
  | .rateLimitExceeded .. => true
  | _ => false

/-- The exceptions claim C3 ranges over: not the framework `HTTPException` (of which
`RateLimitExceeded` is a subclass), not a request-schema or data-model validation
failure, and not one of the three domain exception kinds. -/
def Exc.unclassified : Exc → Bool
  | .valueError _ => true
  | .other .. => true
  | _ => false

/-- The host-acceptance criterion exactly as claim C4 words it: the lower-cased
declared host contains at least one allow-listed entry — the entry *as it appears in
the allow-list* — as a substring.  Stated for comparison with `validate_host`, which
also lower-cases the entry. -/
def claimedHostAccept (allowed : List String) (host : String) : Bool :=
  allowed.any fun entry => pyContains (pyLower host) entry

/-! ## Helper lemmas: pipeline runs -/

/-- On the pass-through path, a successful handler response leaves the pipeline
with the security headers stamped on. -/
theorem pipeline_success_response (p : Policy) (requestId : String) (req : Request)
    (r : Response) (hhost : validate_host p req = true)
    (hsz : sizeCheck p req = .pass) :
    (pipelineRun p requestId req (.success r)).response = addSecurityHeaders requestId r := by
  simp [pipelineRun, SecurityMiddleware.call, dispatchLayer,
    RequestValidationMiddleware.call, ErrorHandlerMiddleware.call, hhost, hsz]

/-- On the pass-through path, an exception without a registered handler escapes to
`ErrorHandlerMiddleware`, whose classified response leaves the pipeline unchanged
(its `send` is outside the gate's `send_wrapper`). -/
theorem pipeline_error_response (p : Policy) (requestId : String) (req : Request)
    (e : Exc) (hhost : validate_host p req = true) (hsz : sizeCheck p req = .pass)
    (he : e.isRateLimit = false) :
    (pipelineRun p requestId req (.raiseExc e)).response
      = (handle_exception (some requestId) e).1 := by
  cases e <;> simp [Exc.isRateLimit] at he <;>
    simp [pipelineRun, SecurityMiddleware.call, dispatchLayer,
      RequestValidationMiddleware.call, ErrorHandlerMiddleware.call, hhost, hsz]

/-- Every response the error classifier synthesizes carries exactly the framework's
`content-type` header — in particular none of the security headers. -/
theorem handle_exception_headers (requestId : Option String) (e : Exc) :
    (handle_exception requestId e).1.headers = [("content-type", "application/json")] := by
  cases e <;> simp [handle_exception, handle_http_exception, handle_validation_error,
    handle_pydantic_validation_error, handle_internal_error, jsonResponse]

/-- The complete run for an unclassified exception on the pass-through path:
a fixed generic 500 envelope independent of the exception, with the exception's
class name, message and traceback appearing only in the log line. -/
theorem pipeline_unclassified_run (p : Policy) (requestId : String) (req : Request)
    (e : Exc) (hhost : validate_host p req = true) (hsz : sizeCheck p req = .pass)
    (he : e.unclassified = true) :
    pipelineRun p requestId req (.raiseExc e) =
      { response := jsonResponse 500
          (.dict [("error", .str "INTERNAL_SERVER_ERROR"),
                  ("detail", .str "An internal server error occurred"),
                  ("request_id", .str requestId)]),
        handlerRan := true, state := some requestId,
        logs := [{ level := "info", event := "Incoming request", request_id := none,
                   extra := [] },
                 { level := "error", event := "Internal server error",
                   request_id := some requestId,
                   extra := [("error_type", e.pyTypeName), ("error_message", e.pyStr),
                             ("traceback", e.traceText)] }] } := by
  cases e <;> simp [Exc.unclassified] at he <;>
    simp [pipelineRun, SecurityMiddleware.call, dispatchLayer,
      RequestValidationMiddleware.call, ErrorHandlerMiddleware.call, hhost, hsz,
      handle_exception, handle_internal_error, Exc.pyTypeName, Exc.pyStr, Exc.traceText,
      optVal, jsonResponse]

theorem valueGet_cons_eq (k : String) (v : Value) (rest : List (String × Value)) :
    Value.get? (.dict ((k, v) :: rest)) k = some v := by
  simp [Value.get?, List.find?]

theorem valueGet_cons_ne (k0 : String) (v0 : Value) (k : String)
    (rest : List (String × Value)) (h : k0 ≠ k) :
    Value.get? (.dict ((k0, v0) :: rest)) k = Value.get? (.dict rest) k := by
  have hb : (k0 == k) = false := beq_eq_false_iff_ne.mpr h
  simp [Value.get?, List.find?, hb]

/-! ## Claims -/

/-- **C8, counterexample.**  The claim states that sanitizing
`"<script>alert(1)</script>hello"` yields `"hello"`.  In fact tag stripping removes
only the tags and keeps all text content — including the text inside the `script`
element — so the result is `"alert(1)hello"`, which differs from `"hello"`. -/
theorem C8_counterexample :
    sanitize_input (.str "<script>alert(1)</script>hello") = .str "alert(1)hello" ∧
    stripTags "<script>alert(1)</script>hello" = "alert(1)hello" ∧
    ("alert(1)hello" : String) ≠ "hello" :=
  ⟨rfl, rfl, by decide⟩

/-- **C8, amended.**  `sanitize_input` strips all markup tags and attributes from a
string, keeping the remaining text — so `"<script>alert(1)</script>hello"` yields
`"alert(1)hello"` (not `"hello"`: the script's text content is retained).
`validate_json_input` recurses into every string-valued and mapping-valued entry of a
mapping and into string and mapping elements of list-valued entries, passing every
other value (and every other list element type, including nested lists) through
unchanged; `{"a": "<b>x</b>", "c": {"d": "<i>y</i>"}}` yields
`{"a": "x", "c": {"d": "y"}}`; non-string, non-mapping, non-list inputs are returned
unchanged by both functions. -/
theorem C8_amended :
    sanitize_input (.str "<script>alert(1)</script>hello") = .str "alert(1)hello" ∧
    validate_json_input
        (.dict [("a", .str "<b>x</b>"), ("c", .dict [("d", .str "<i>y</i>")])])
      = .dict [("a", .str "x"), ("c", .dict [("d", .str "y")])] ∧
    (∀ s, sanitize_input (.str s) = .str (stripTags s)) ∧
    (∀ entries, validate_json_input (.dict entries)
        = .dict (entries.map fun kv => (kv.1, sanitizeValue kv.2))) ∧
    (∀ s, sanitizeValue (.str s) = .str (stripTags s)) ∧
    (∀ entries, sanitizeValue (.dict entries) = validate_json_input (.dict entries)) ∧
    (∀ items, sanitizeValue (.list items) = .list (items.map sanitizeItem)) ∧
    (∀ s, sanitizeItem (.str s) = .str (stripTags s)) ∧
    (∀ entries, sanitizeItem (.dict entries) = validate_json_input (.dict entries)) ∧
    (∀ items, sanitizeItem (.list items) = .list items) ∧
    (∀ n : Int, sanitizeValue (.int n) = .int n ∧ sanitizeItem (.int n) = .int n) ∧
    (∀ b : Bool, sanitizeValue (.bool b) = .bool b ∧ sanitizeItem (.bool b) = .bool b) ∧
    (sanitizeValue .null = .null ∧ sanitizeItem .null = .null) ∧
    (∀ n : Int, sanitize_input (.int n) = .int n ∧ validate_json_input (.int n) = .int n) ∧
    (∀ b : Bool,
      sanitize_input (.bool b) = .bool b ∧ validate_json_input (.bool b) = .bool b) ∧
    (∀ items, sanitize_input (.list items) = .list items ∧
      validate_json_input (.list items) = .list items) ∧
    (sanitize_input .null = .null ∧ validate_json_input .null = .null) := by
  refine ⟨rfl, rfl, fun s => rfl, fun entries => ?_, fun s => rfl, fun entries => rfl,
    fun items => ?_, fun s => rfl, fun entries => rfl, fun items => rfl,
    fun n => ⟨rfl, rfl⟩, fun b => ⟨rfl, rfl⟩, ⟨rfl, rfl⟩, fun n => ⟨rfl, rfl⟩,
    fun b => ⟨rfl, rfl⟩, fun items => ⟨rfl, rfl⟩, ⟨rfl, rfl⟩⟩
  · simp [validate_json_input, sanitizeEntries_eq_map]
  · simp [sanitizeValue, sanitizeItems_eq_map]

/-- **C9.**  Sanitization is idempotent: re-applying either sanitizer entry point
(`sanitize_input` for strings, `validate_json_input` for arbitrarily nested
mapping/list/string structures) to its own output is a no-op. -/
theorem C9_sanitize_idempotent :
    ∀ v : Value,
      sanitize_input (sanitize_input v) = sanitize_input v ∧
      validate_json_input (validate_json_input v) = validate_json_input v := by
  intro v
  constructor
  · cases v <;> simp [sanitize_input, stripTags_idem]
  · cases v <;> simp [validate_json_input, sanitizeEntries_idem]

/-- **C4, counterexample.**  The claim's acceptance criterion — the lower-cased host
contains some allow-list entry, the entry taken verbatim — disagrees with
`_validate_host`, which also lower-cases the entry: with allow-list
`["EXample.com"]` and host `"example.com"`, the gate accepts, but the lower-cased host
does not contain the verbatim entry `"EXample.com"`. -/
theorem C4_counterexample :
    validate_host ⟨["EXample.com"], 10485760⟩ ⟨some "example.com", none⟩ = true ∧
    claimedHostAccept ["EXample.com"] "example.com" = false ∧
    "*" ∉ (["EXample.com"] : List String) :=
  ⟨by decide, by decide, by decide⟩

/-- **C4, amended.**  Under a non-wildcard allow-list the gate accepts iff the
lower-cased declared host contains at least one *lower-cased* allow-listed entry as a
substring (substring containment, not exact match); when it rejects, the pipeline
short-circuits with a 400 and the route handler never executes; a wildcard entry
accepts every host. -/
theorem C4_amended (p : Policy) (req : Request) :
    ("*" ∉ p.allowed_hosts →
      (validate_host p req = true ↔
        ∃ a ∈ p.allowed_hosts,
          pyContains (pyLower (req.host.getD "")) (pyLower a) = true)) ∧
    ("*" ∈ p.allowed_hosts → validate_host p req = true) ∧
    (∀ (requestId : String) (h : HandlerOutcome),
      validate_host p req = false →
        (pipelineRun p requestId req h).response.status = 400 ∧
        (pipelineRun p requestId req h).handlerRan = false) := by
  refine ⟨fun hw => ?_, fun hm => ?_, fun requestId h hv => ?_⟩
  · have hc : p.allowed_hosts.contains "*" = false := by
      simpa using hw
    simp only [validate_host, hc, Bool.false_eq_true, if_false, List.any_eq_true]
  · have hc : p.allowed_hosts.contains "*" = true := by
      simpa using hm
    simp only [validate_host, hc, if_true]
  · constructor <;>
      simp [pipelineRun, SecurityMiddleware.call, RequestValidationMiddleware.call,
        ErrorHandlerMiddleware.call, hv, jsonResponse]

/-- **C4, witness.**  The amended theorem applied at concrete inputs: a non-wildcard
policy whose entry matches case-insensitively by substring; a wildcard policy; and a
rejected host short-circuiting with 400 before the handler. -/
theorem C4_amended_witness :
    (validate_host ⟨["EXample.com"], 100⟩ ⟨some "api.example.com", none⟩ = true ↔
      ∃ a ∈ (["EXample.com"] : List String),
        pyContains (pyLower "api.example.com") (pyLower a) = true) ∧
    validate_host ⟨["*"], 100⟩ ⟨some "anything.org", none⟩ = true ∧
    ((pipelineRun ⟨["EXample.com"], 100⟩ "id-1" ⟨some "evil.org", none⟩
        (.success (jsonResponse 200 (.dict [])))).response.status = 400 ∧
      (pipelineRun ⟨["EXample.com"], 100⟩ "id-1" ⟨some "evil.org", none⟩
        (.success (jsonResponse 200 (.dict [])))).handlerRan = false) :=
  ⟨(C4_amended ⟨["EXample.com"], 100⟩ ⟨some "api.example.com", none⟩).1 (by decide),
   (C4_amended ⟨["*"], 100⟩ ⟨some "anything.org", none⟩).2.1 (by decide),
   (C4_amended ⟨["EXample.com"], 100⟩ ⟨some "evil.org", none⟩).2.2 "id-1"
     (.success (jsonResponse 200 (.dict []))) (by decide)⟩

/-- **C1, counterexample.**  The claim states that *every* outgoing response —
including a Security Gate short-circuit — carries the five security headers and
`X-Request-Id`.  A request whose host fails validation is answered with a 400 that the
gate writes through the plain `send` (security.py line 44), before `send_wrapper` is
even installed: the response carries none of the six headers. -/
theorem C1_counterexample :
    (pipelineRun ⟨["example.com"], 10485760⟩ "id-1" ⟨some "evil.org", none⟩
        (.success (jsonResponse 200 (.dict [])))).response.status = 400 ∧
    headerGet (pipelineRun ⟨["example.com"], 10485760⟩ "id-1" ⟨some "evil.org", none⟩
        (.success (jsonResponse 200 (.dict [])))).response.headers
        "x-content-type-options" = none ∧
    headerGet (pipelineRun ⟨["example.com"], 10485760⟩ "id-1" ⟨some "evil.org", none⟩
        (.success (jsonResponse 200 (.dict [])))).response.headers
        "x-request-id" = none :=
  ⟨rfl, rfl, rfl⟩

/-- **C1, amended.**  The five fixed security headers plus `X-Request-Id` (equal to the
generated correlation id) are injected exactly on the responses that flow outward
through the gate's `send_wrapper`: route-handler successes and responses synthesized by
the registered exception handlers inside the dispatch layer (such as the 429).  The
gate's own 400/413 short-circuits and the Error Classifier's synthesized responses
bypass `send_wrapper` and carry none of these headers. -/
theorem C1_amended (p : Policy) (requestId : String) (req : Request)
    (hhost : validate_host p req = true) (hsz : sizeCheck p req = .pass) :
    (∀ r : Response,
      headerGet (pipelineRun p requestId req (.success r)).response.headers
          "x-content-type-options" = some "nosniff" ∧
      headerGet (pipelineRun p requestId req (.success r)).response.headers
          "x-frame-options" = some "DENY" ∧
      headerGet (pipelineRun p requestId req (.success r)).response.headers
          "x-xss-protection" = some "1; mode=block" ∧
      headerGet (pipelineRun p requestId req (.success r)).response.headers
          "referrer-policy" = some "strict-origin-when-cross-origin" ∧
      headerGet (pipelineRun p requestId req (.success r)).response.headers
          "content-security-policy"
          = some ("default-src " ++ squote ++ "self" ++ squote) ∧
      headerGet (pipelineRun p requestId req (.success r)).response.headers
          "x-request-id" = some requestId) ∧
    (∀ (detail : String) (retryAfter : Int),
      headerGet (pipelineRun p requestId req
          (.raiseExc (.rateLimitExceeded detail retryAfter))).response.headers
          "x-request-id" = some requestId ∧
      headerGet (pipelineRun p requestId req
          (.raiseExc (.rateLimitExceeded detail retryAfter))).response.headers
          "x-content-type-options" = some "nosniff") ∧
    (∀ e : Exc, e.isRateLimit = false →
      headerGet (pipelineRun p requestId req (.raiseExc e)).response.headers
          "x-content-type-options" = none ∧
      headerGet (pipelineRun p requestId req (.raiseExc e)).response.headers
          "x-request-id" = none) := by
  refine ⟨fun r => ?_, fun detail retryAfter => ?_, fun e he => ?_⟩
  · rw [pipeline_success_response p requestId req r hhost hsz]
    exact addSecurityHeaders_lookups requestId r
  · have hresp : (pipelineRun p requestId req
        (.raiseExc (.rateLimitExceeded detail retryAfter))).response
        = addSecurityHeaders requestId (rate_limit_handler (some requestId) retryAfter).1 := by
      simp [pipelineRun, SecurityMiddleware.call, dispatchLayer,
        RequestValidationMiddleware.call, ErrorHandlerMiddleware.call, hhost, hsz,
        rate_limit_handler]
    rw [hresp]
    have hl := addSecurityHeaders_lookups requestId
      (rate_limit_handler (some requestId) retryAfter).1
    exact ⟨hl.2.2.2.2.2, hl.1⟩
  · rw [pipeline_error_response p requestId req e hhost hsz he,
      handle_exception_headers]
    exact ⟨by decide, by decide⟩

/-- **C1, witness.**  The amended statement at concrete inputs: a succeeding handler's
response carries `X-Request-Id` and the sniffing-prevention header; the dispatched 429
carries `X-Request-Id`; a classifier-synthesized 500 carries neither. -/
theorem C1_amended_witness :
    headerGet (pipelineRun ⟨["*"], 100⟩ "id-1" ⟨some "api.local", none⟩
        (.success (jsonResponse 200 (.dict [])))).response.headers
        "x-request-id" = some "id-1" ∧
    headerGet (pipelineRun ⟨["*"], 100⟩ "id-1" ⟨some "api.local", none⟩
        (.success (jsonResponse 200 (.dict [])))).response.headers
        "x-content-type-options" = some "nosniff" ∧
    headerGet (pipelineRun ⟨["*"], 100⟩ "id-1" ⟨some "api.local", none⟩
        (.raiseExc (.rateLimitExceeded "5 per minute" 30))).response.headers
        "x-request-id" = some "id-1" ∧
    headerGet (pipelineRun ⟨["*"], 100⟩ "id-1" ⟨some "api.local", none⟩
        (.raiseExc (.other "KeyError" "boom" "trace"))).response.headers
        "x-request-id" = none :=
  ⟨((C1_amended ⟨["*"], 100⟩ "id-1" ⟨some "api.local", none⟩ (by decide) (by decide)).1
      (jsonResponse 200 (.dict []))).2.2.2.2.2,
   ((C1_amended ⟨["*"], 100⟩ "id-1" ⟨some "api.local", none⟩ (by decide) (by decide)).1
      (jsonResponse 200 (.dict []))).1,
   ((C1_amended ⟨["*"], 100⟩ "id-1" ⟨some "api.local", none⟩ (by decide) (by decide)).2.1
      "5 per minute" 30).1,
   ((C1_amended ⟨["*"], 100⟩ "id-1" ⟨some "api.local", none⟩ (by decide) (by decide)).2.2
      (.other "KeyError" "boom" "trace") rfl).2⟩

/-- **C2.**  Claim C2 states that an escaping `BusinessLogicError("duplicate entry",
"DUP_001")` is answered with status 400 and the `BUSINESS_LOGIC_ERROR` envelope.
`src/app.py` registers only the `RateLimitExceeded` handler (line 30), so the
exception escapes to `ErrorHandlerMiddleware`, whose `isinstance` chain has no branch
for it: the client actually receives the generic 500 `INTERNAL_SERVER_ERROR` envelope.
The unwired `business_logic_error_handler` would have produced exactly the claimed
envelope. -/
theorem C2_code_behavior :
    (pipelineRun ⟨["*"], 10485760⟩ "id-1" ⟨some "api.local", none⟩
        (.raiseExc (.businessLogicError "duplicate entry" (some "DUP_001")))).response.status
      = 500 ∧
    (pipelineRun ⟨["*"], 10485760⟩ "id-1" ⟨some "api.local", none⟩
        (.raiseExc (.businessLogicError "duplicate entry" (some "DUP_001")))).response.body
      = .dict [("error", .str "INTERNAL_SERVER_ERROR"),
               ("detail", .str "An internal server error occurred"),
               ("request_id", .str "id-1")] ∧
    (business_logic_error_handler (some "id-1") "duplicate entry" (some "DUP_001")).1.status
      = 400 ∧
    (business_logic_error_handler (some "id-1") "duplicate entry" (some "DUP_001")).1.body
      = .dict [("error", .str "BUSINESS_LOGIC_ERROR"),
               ("error_code", .str "DUP_001"),
               ("detail", .str "duplicate entry"),
               ("request_id", .str "id-1")] ∧
    (500 : Nat) ≠ 400 :=
  ⟨rfl, rfl, rfl, rfl, by decide⟩

/-- **C3.**  For any two exceptions that are neither framework HTTP exceptions, nor
validation failures, nor domain exception kinds, raised on otherwise identical
requests, the classified responses are *identical*: a 500 with the fixed
`INTERNAL_SERVER_ERROR` envelope whose body never depends on the exception; the
exception's class name, message and stack trace appear only in the log line. -/
theorem C3_unclassified_uniform (p : Policy) (requestId : String) (req : Request)
    (e1 e2 : Exc) (hhost : validate_host p req = true) (hsz : sizeCheck p req = .pass)
    (h1 : e1.unclassified = true) (h2 : e2.unclassified = true) :
    (pipelineRun p requestId req (.raiseExc e1)).response
        = (pipelineRun p requestId req (.raiseExc e2)).response ∧
    (pipelineRun p requestId req (.raiseExc e1)).response.status = 500 ∧
    (pipelineRun p requestId req (.raiseExc e1)).response.body
      = .dict [("error", .str "INTERNAL_SERVER_ERROR"),
               ("detail", .str "An internal server error occurred"),
               ("request_id", .str requestId)] ∧
    ({ level := "error", event := "Internal server error", request_id := some requestId,
       extra := [("error_type", e1.pyTypeName), ("error_message", e1.pyStr),
                 ("traceback", e1.traceText)] } : LogLine)
      ∈ (pipelineRun p requestId req (.raiseExc e1)).logs := by
  rw [pipeline_unclassified_run p requestId req e1 hhost hsz h1,
    pipeline_unclassified_run p requestId req e2 hhost hsz h2]
  refine ⟨rfl, rfl, rfl, ?_⟩
  simp

/-- **C3, witness.**  Two concrete unclassified exceptions (a `ValueError` and a
`KeyError`-shaped fault) yield literally identical 500 responses. -/
theorem C3_unclassified_uniform_witness :
    (pipelineRun ⟨["*"], 100⟩ "id-1" ⟨some "api.local", none⟩
        (.raiseExc (.valueError "boom"))).response
      = (pipelineRun ⟨["*"], 100⟩ "id-1" ⟨some "api.local", none⟩
        (.raiseExc (.other "KeyError" "missing key" "Traceback xyz"))).response ∧
    (pipelineRun ⟨["*"], 100⟩ "id-1" ⟨some "api.local", none⟩
        (.raiseExc (.valueError "boom"))).response.status = 500 ∧
    (pipelineRun ⟨["*"], 100⟩ "id-1" ⟨some "api.local", none⟩
        (.raiseExc (.valueError "boom"))).response.body
      = .dict [("error", .str "INTERNAL_SERVER_ERROR"),
               ("detail", .str "An internal server error occurred"),
               ("request_id", .str "id-1")] ∧
    ({ level := "error", event := "Internal server error", request_id := some "id-1",
       extra := [("error_type", "ValueError"), ("error_message", "boom"),
                 ("traceback",
                  "Traceback (most recent call last): ValueError: boom")] } : LogLine)
      ∈ (pipelineRun ⟨["*"], 100⟩ "id-1" ⟨some "api.local", none⟩
          (.raiseExc (.valueError "boom"))).logs :=
  C3_unclassified_uniform ⟨["*"], 100⟩ "id-1" ⟨some "api.local", none⟩
    (.valueError "boom") (.other "KeyError" "missing key" "Traceback xyz")
    (by decide) (by decide) rfl rfl

/-- **C5.**  A request that exceeds the rate-limit budget (slowapi raising
`RateLimitExceeded`, dispatched to the registered `rate_limit_handler`) is answered
with status 429, a JSON body carrying the numeric `retry_after` hint, an
`X-Request-Id` response header equal to the generated correlation id, and a warning
log line carrying that same correlation id. -/
theorem C5_rate_limit (p : Policy) (requestId : String) (req : Request)
    (detail : String) (retryAfter : Int)
    (hhost : validate_host p req = true) (hsz : sizeCheck p req = .pass) :
    (pipelineRun p requestId req
        (.raiseExc (.rateLimitExceeded detail retryAfter))).response.status = 429 ∧
    (pipelineRun p requestId req
        (.raiseExc (.rateLimitExceeded detail retryAfter))).response.body.get?
        "retry_after" = some (.int retryAfter) ∧
    (pipelineRun p requestId req
        (.raiseExc (.rateLimitExceeded detail retryAfter))).response.body.get?
        "detail" = some (.str "Rate limit exceeded. Please try again later.") ∧
    headerGet (pipelineRun p requestId req
        (.raiseExc (.rateLimitExceeded detail retryAfter))).response.headers
        "x-request-id" = some requestId ∧
    ({ level := "warning", event := "Rate limit exceeded", request_id := some requestId,
       extra := [] } : LogLine)
      ∈ (pipelineRun p requestId req
          (.raiseExc (.rateLimitExceeded detail retryAfter))).logs := by
  have hresp : (pipelineRun p requestId req
      (.raiseExc (.rateLimitExceeded detail retryAfter))).response
      = addSecurityHeaders requestId (rate_limit_handler (some requestId) retryAfter).1 := by
    simp [pipelineRun, SecurityMiddleware.call, dispatchLayer,
      RequestValidationMiddleware.call, ErrorHandlerMiddleware.call, hhost, hsz,
      rate_limit_handler]
  refine ⟨?_, ?_, ?_, ?_, ?_⟩
  · rw [hresp]; rfl
  · rw [hresp]
    show Value.get? (.dict [("detail", .str "Rate limit exceeded. Please try again later."),
      ("retry_after", .int retryAfter)]) "retry_after" = some (.int retryAfter)
    rw [valueGet_cons_ne _ _ _ _ (by decide), valueGet_cons_eq]
  · rw [hresp]
    show Value.get? (.dict [("detail", .str "Rate limit exceeded. Please try again later."),
      ("retry_after", .int retryAfter)]) "detail" = some (.str "Rate limit exceeded. Please try again later.")
    rw [valueGet_cons_eq]
  · rw [hresp]
    exact (addSecurityHeaders_lookups requestId
      (rate_limit_handler (some requestId) retryAfter).1).2.2.2.2.2
  · simp [pipelineRun, SecurityMiddleware.call, dispatchLayer,
      RequestValidationMiddleware.call, ErrorHandlerMiddleware.call, hhost, hsz,
      rate_limit_handler]

/-- **C5, witness.**  The rate-limit guarantee at a concrete request. -/
theorem C5_rate_limit_witness :
    (pipelineRun ⟨["*"], 100⟩ "id-1" ⟨some "api.local", none⟩
        (.raiseExc (.rateLimitExceeded "5 per minute" 30))).response.status = 429 ∧
    (pipelineRun ⟨["*"], 100⟩ "id-1" ⟨some "api.local", none⟩
        (.raiseExc (.rateLimitExceeded "5 per minute" 30))).response.body.get?
        "retry_after" = some (.int 30) ∧
    (pipelineRun ⟨["*"], 100⟩ "id-1" ⟨some "api.local", none⟩
        (.raiseExc (.rateLimitExceeded "5 per minute" 30))).response.body.get?
        "detail" = some (.str "Rate limit exceeded. Please try again later.") ∧
    headerGet (pipelineRun ⟨["*"], 100⟩ "id-1" ⟨some "api.local", none⟩
        (.raiseExc (.rateLimitExceeded "5 per minute" 30))).response.headers
        "x-request-id" = some "id-1" ∧
    ({ level := "warning", event := "Rate limit exceeded", request_id := some "id-1",
       extra := [] } : LogLine)
      ∈ (pipelineRun ⟨["*"], 100⟩ "id-1" ⟨some "api.local", none⟩
          (.raiseExc (.rateLimitExceeded "5 per minute" 30))).logs :=
  C5_rate_limit ⟨["*"], 100⟩ "id-1" ⟨some "api.local", none⟩ "5 per minute" 30
    (by decide) (by decide)

/-- **C6.**  A request whose declared `Content-Length` parses to a value above the
configured maximum is short-circuited with a 413 and the route handler never executes
(given the host check, which runs first, passes); a request with no declared
`Content-Length` passes size validation. -/
theorem C6_size_limit (p : Policy) (requestId : String) (req : Request)
    (h : HandlerOutcome) (cl : String) (n : Int)
    (hhost : validate_host p req = true)
    (hcl : req.contentLength = some cl)
    (hn : pyInt cl = some n)
    (hgt : n > (p.max_request_size : Int)) :
    (pipelineRun p requestId req h).response.status = 413 ∧
    (pipelineRun p requestId req h).handlerRan = false ∧
    (∀ req' : Request, req'.contentLength = none → sizeCheck p req' = .pass) := by
  have hne : cl ≠ "" := by
    intro e
    rw [e] at hn
    have hnone : pyInt "" = none := by decide
    rw [hnone] at hn
    exact Option.noConfusion hn
  have hsz : sizeCheck p req = .tooLarge := by
    simp [sizeCheck, hcl, hne, hn, hgt]
  refine ⟨?_, ?_, fun req' h' => by simp [sizeCheck, h']⟩ <;>
    simp [pipelineRun, SecurityMiddleware.call, RequestValidationMiddleware.call,
      ErrorHandlerMiddleware.call, hhost, hsz, jsonResponse]

/-- **C6, witness.**  A declared length of 200 against a 100-byte maximum yields a 413
with the handler never run. -/
theorem C6_size_limit_witness :
    (pipelineRun ⟨["*"], 100⟩ "id-1" ⟨some "api.local", some "200"⟩
        (.success (jsonResponse 200 (.dict [])))).response.status = 413 ∧
    (pipelineRun ⟨["*"], 100⟩ "id-1" ⟨some "api.local", some "200"⟩
        (.success (jsonResponse 200 (.dict [])))).handlerRan = false :=
  ⟨(C6_size_limit ⟨["*"], 100⟩ "id-1" ⟨some "api.local", some "200"⟩
      (.success (jsonResponse 200 (.dict []))) "200" 200
      (by decide) rfl (by decide) (by decide)).1,
   (C6_size_limit ⟨["*"], 100⟩ "id-1" ⟨some "api.local", some "200"⟩
      (.success (jsonResponse 200 (.dict []))) "200" 200
      (by decide) rfl (by decide) (by decide)).2.1⟩

/-- **C7.**  A request-schema validation failure is answered 422 with kind
`VALIDATION_ERROR` and fixed detail "Request validation failed"; a data-model
validation failure is answered 422 with the same kind and fixed detail
"Data validation failed"; in both cases the body's `errors` list has one entry per
reported failure, in the reported order, each entry's `field` being the failure's
location path joined with "." plus its message and type tag. -/
theorem C7_validation_envelopes (p : Policy) (requestId : String) (req : Request)
    (errs : List VErr)
    (hhost : validate_host p req = true) (hsz : sizeCheck p req = .pass) :
    (pipelineRun p requestId req
        (.raiseExc (.requestValidationError errs))).response.status = 422 ∧
    (pipelineRun p requestId req
        (.raiseExc (.requestValidationError errs))).response.body.get? "error"
      = some (.str "VALIDATION_ERROR") ∧
    (pipelineRun p requestId req
        (.raiseExc (.requestValidationError errs))).response.body.get? "detail"
      = some (.str "Request validation failed") ∧
    (pipelineRun p requestId req
        (.raiseExc (.requestValidationError errs))).response.body.get? "errors"
      = some (.list (errs.map fieldError)) ∧
    (pipelineRun p requestId req
        (.raiseExc (.validationError errs))).response.status = 422 ∧
    (pipelineRun p requestId req
        (.raiseExc (.validationError errs))).response.body.get? "error"
      = some (.str "VALIDATION_ERROR") ∧
    (pipelineRun p requestId req
        (.raiseExc (.validationError errs))).response.body.get? "detail"
      = some (.str "Data validation failed") ∧
    (pipelineRun p requestId req
        (.raiseExc (.validationError errs))).response.body.get? "errors"
      = some (.list (errs.map fieldError)) ∧
    (∀ i : Nat, (errs.map fieldError).get? i = (errs.get? i).map fieldError) ∧
    (∀ e : VErr, fieldError e
      = .dict [("field", .str (String.intercalate "." (e.loc.map LocPart.pyStr))),
               ("message", .str e.msg),
               ("type", .str e.type)]) := by
  have hr1 := pipeline_error_response p requestId req (.requestValidationError errs)
    hhost hsz rfl
  have hr2 := pipeline_error_response p requestId req (.validationError errs)
    hhost hsz rfl
  refine ⟨?_, ?_, ?_, ?_, ?_, ?_, ?_, ?_,
    fun i => by simp [List.get?_eq_getElem?, List.getElem?_map], fun e => rfl⟩
  · rw [hr1]
    simp [handle_exception, handle_validation_error, jsonResponse]
  · rw [hr1]
    simp [handle_exception, handle_validation_error, jsonResponse, Value.get?, List.find?]
  · rw [hr1]
    simp [handle_exception, handle_validation_error, jsonResponse, Value.get?, List.find?]
  · rw [hr1]
    simp [handle_exception, handle_validation_error, jsonResponse, Value.get?, List.find?]
  · rw [hr2]
    simp [handle_exception, handle_pydantic_validation_error, jsonResponse]
  · rw [hr2]
    simp [handle_exception, handle_pydantic_validation_error, jsonResponse,
      Value.get?, List.find?]
  · rw [hr2]
    simp [handle_exception, handle_pydantic_validation_error, jsonResponse,
      Value.get?, List.find?]
  · rw [hr2]
    simp [handle_exception, handle_pydantic_validation_error, jsonResponse,
      Value.get?, List.find?]

/-- **C7, witness.**  The validation envelopes at one concrete reported failure with a
mixed string/index location path. -/
theorem C7_validation_envelopes_witness :
    (pipelineRun ⟨["*"], 100⟩ "id-1" ⟨some "api.local", none⟩
        (.raiseExc (.requestValidationError
          [⟨[.strPart "body", .intPart 0, .strPart "name"], "field required",
            "value_error.missing"⟩]))).response.status = 422 ∧
    (pipelineRun ⟨["*"], 100⟩ "id-1" ⟨some "api.local", none⟩
        (.raiseExc (.requestValidationError
          [⟨[.strPart "body", .intPart 0, .strPart "name"], "field required",
            "value_error.missing"⟩]))).response.body.get? "errors"
      = some (.list [.dict [("field", .str "body.0.name"),
                           ("message", .str "field required"),
                           ("type", .str "value_error.missing")]]) := by
  have hmain := C7_validation_envelopes ⟨["*"], 100⟩ "id-1" ⟨some "api.local", none⟩
    [⟨[.strPart "body", .intPart 0, .strPart "name"], "field required",
      "value_error.missing"⟩] (by decide) (by decide)
  exact ⟨hmain.1, by rw [hmain.2.2.2.1]; rfl⟩

/-- **C10, counterexample.**  The claim states that the 500 envelope produced after a
non-numeric `Content-Length` carries a null `request_id`.  In fact the gate stores the
correlation id into the shared per-request state *before* the size check, and the
Error Classifier reads it back from that shared state, so the envelope's `request_id`
is the generated correlation id, not null. -/
theorem C10_counterexample :
    (pipelineRun ⟨["*"], 100⟩ "id-1" ⟨some "api.local", some "12a"⟩
        (.success (jsonResponse 200 (.dict [])))).response.body.get? "request_id"
      = some (.str "id-1") ∧
    Value.str "id-1" ≠ Value.null :=
  ⟨rfl, fun hcontra => Value.noConfusion hcontra⟩

/-- **C10, amended.**  A present, non-empty, non-numeric declared `Content-Length`
makes the gate's size check raise a `ValueError` out of `int()` instead of answering
413 or 400; the Error Classifier, layered outside the gate, answers with the 500
`INTERNAL_SERVER_ERROR` envelope whose `request_id` is the correlation id the gate
stored in the shared request state (not null); the route handler never executes; and
the response, bypassing the gate's header wrapper, lacks the `X-Request-Id` header. -/
theorem C10_amended (p : Policy) (requestId : String) (req : Request)
    (h : HandlerOutcome) (cl : String)
    (hhost : validate_host p req = true)
    (hcl : req.contentLength = some cl)
    (hne : cl ≠ "")
    (hbad : pyInt cl = none) :
    sizeCheck p req = .convError cl ∧
    (pipelineRun p requestId req h).response.status = 500 ∧
    (pipelineRun p requestId req h).response.body.get? "error"
      = some (.str "INTERNAL_SERVER_ERROR") ∧
    (pipelineRun p requestId req h).response.body.get? "request_id"
      = some (.str requestId) ∧
    (pipelineRun p requestId req h).handlerRan = false ∧
    headerGet (pipelineRun p requestId req h).response.headers "x-request-id" = none := by
  have hsz : sizeCheck p req = .convError cl := by
    simp [sizeCheck, hcl, hne, hbad]
  refine ⟨hsz, ?_, ?_, ?_, ?_, ?_⟩ <;>
    simp [pipelineRun, SecurityMiddleware.call, RequestValidationMiddleware.call,
      ErrorHandlerMiddleware.call, hhost, hsz, handle_exception, handle_internal_error,
      optVal, jsonResponse, Value.get?, List.find?, headerGet]

/-- **C10, witness.**  The amended statement at the concrete declared length "12a". -/
theorem C10_amended_witness :
    sizeCheck ⟨["*"], 100⟩ ⟨some "api.local", some "12a"⟩ = .convError "12a" ∧
    (pipelineRun ⟨["*"], 100⟩ "id-1" ⟨some "api.local", some "12a"⟩
        (.success (jsonResponse 200 (.dict [])))).response.status = 500 ∧
    (pipelineRun ⟨["*"], 100⟩ "id-1" ⟨some "api.local", some "12a"⟩
        (.success (jsonResponse 200 (.dict [])))).response.body.get? "error"
      = some (.str "INTERNAL_SERVER_ERROR") ∧
    (pipelineRun ⟨["*"], 100⟩ "id-1" ⟨some "api.local", some "12a"⟩
        (.success (jsonResponse 200 (.dict [])))).response.body.get? "request_id"
      = some (.str "id-1") ∧
    (pipelineRun ⟨["*"], 100⟩ "id-1" ⟨some "api.local", some "12a"⟩
        (.success (jsonResponse 200 (.dict [])))).handlerRan = false ∧
    headerGet (pipelineRun ⟨["*"], 100⟩ "id-1" ⟨some "api.local", some "12a"⟩
        (.success (jsonResponse 200 (.dict [])))).response.headers "x-request-id"
      = none :=
  C10_amended ⟨["*"], 100⟩ "id-1" ⟨some "api.local", some "12a"⟩
    (.success (jsonResponse 200 (.dict []))) "12a" (by decide) rfl (by decide) (by decide)

end Gateway
